import Mathlib

/-!
# Verification of the Wordle multiplayer server's room/queue/connection core

Shallow embedding of `src/server.js` (the Match & Room Orchestration Engine):
the in-memory state (`gameRooms`, `matchmakingQueue`, `activeConnections`,
`socketRooms`, `socketTypes`), the `makeGuess` / `joinRoom` / `createRoom` /
`joinMatchmaking` handlers, `cleanupPlayer`, `syncConnectionTracking` and
`cleanupInactiveRooms`.

JavaScript `Map`s are modelled as association lists with insertion order,
`Set`s and the queue array as `List String`.  The socket.io transport registry
(`io.sockets.sockets`) is an environment parameter: an association list from
socket id to a record of its `connected` flag and whether `socket.userId` is
set.  Emitted socket events are collected in an output list.  Timestamps are
`Nat` milliseconds.  The external Stats Service, the word list contents, the
`setTimeout`-delayed teardown of finished rooms and the per-room `playerStats`
map are outside the scope of the claims and are not modelled (the await of
`PlayerStats.getStats` during matchmaking is modelled only by a boolean
`statsOk` saying whether it threw).
-/

namespace WordleServer

/-- JS value lookup in a `Map` modelled as an association list. -/
def mapLookup (k : String) : List (String × α) → Option α
  | [] => none
  | (k', v) :: rest => if k' = k then some v else mapLookup k rest

/-- JS `Map.set`: overwrite in place if the key exists (JS `Map` keeps the
original insertion position on overwrite), otherwise append. -/
def mapSet (k : String) (v : α) : List (String × α) → List (String × α)
  | [] => [(k, v)]
  | (k', v') :: rest => if k' = k then (k, v) :: rest else (k', v') :: mapSet k v rest

/-- JS `Map.delete` / `Set.delete`): remove the entry with the given key. -/
def mapDelete (k : String) (l : List (String × α)) : List (String × α) :=
  l.filter (fun e => e.1 ≠ k)

/-- JS `Set.add`: append if not already present (JS `Set` keeps insertion order). -/
def setAdd (x : String) (l : List String) : List String :=
  if x ∈ l then l else l ++ [x]

/-- JS `Set.delete` on a set of ids / `Array.splice(indexOf(x), 1)` on a list with
no duplicates: drop every occurrence of `x`. -/
def setDelete (x : String) (l : List String) : List String :=
  l.filter (fun y => y ≠ x)

/-- JS `Array.prototype.indexOf`: index of the first occurrence, `-1` if absent. -/
def jsIndexOf : List String → String → Int
  | [], _ => -1
  | a :: rest, x =>
    if a = x then 0
    else
      let r := jsIndexOf rest x
      if r = -1 then -1 else r + 1

/-- JS `String.prototype.toUpperCase` restricted to ASCII, which covers the
identifiers and words the server handles. -/
def jsToUpperCase (s : String) : String := String.mk (s.toList.map Char.toUpper)

/-- The `room.status` field: `'waiting' | 'playing' | 'finished'`. -/
inductive RoomStatus where
  | waiting
  | playing
  | finished
deriving DecidableEq, Repr

/-- The `socketTypes` values: `'matchmaking' | 'game'`. -/
inductive SocketType where
  | matchmaking
  | game
deriving DecidableEq, Repr

/-- One game room object, as stored in `gameRooms` (src/server.js lines
123-131 and 459-466).  `guesses` is the per-player `Map` of guess lists. -/
structure Room where
  players : List String
  targetWord : String
  status : RoomStatus
  guesses : List (String × List String)
  createdAt : Nat
  isQuickMatch : Bool
deriving DecidableEq, Repr

/-- The server's mutable module-level state (src/server.js lines 52-60). -/
structure ServerState where
  gameRooms : List (String × Room)
  matchmakingQueue : List String
  activeConnections : List String
  socketRooms : List (String × String)
  socketTypes : List (String × SocketType)
deriving DecidableEq, Repr

/-- Transport-level view of one socket: `socket.connected` and whether
`socket.userId` has been set by authentication. -/
structure SocketInfo where
  connected : Bool
  userId : Bool
deriving DecidableEq, Repr

/-- The transport registry `io.sockets.sockets`, an environment input. -/
def ConnMap := List (String × SocketInfo)

/-- Models `io.sockets.sockets.get(id)?.connected` (`undefined` is falsy). -/
def connConnected (m : ConnMap) (id : String) : Bool :=
  match mapLookup id m with
  | some s => s.connected
  | none => false

/-- Models `socket?.connected && socket.userId`: connected and authenticated. -/
def connLive (m : ConnMap) (id : String) : Bool :=
  match mapLookup id m with
  | some s => s.connected && s.userId
  | none => false

/-- Events the server emits to sockets / rooms, with the payload fields the
claims are about. -/
inductive ServerEvent where
  | matchmakingError (msg : String)
  | matchmakingJoined
  | gameStart (targetWord : String) (players : List String) (roomCode : String)
  | roomCreated (roomCode : String) (playerId : String) (players : List String)
  | waitingForPlayer
  | playerJoined (playerId : String) (players : List String)
  | guessUpdate (playerId : String) (playerNumber : Int) (guess : String)
      (guessNumber : Int) (isQuickMatch : Bool)
  | gameOver (winner : Option String) (winnerNumber : Option Int)
      (targetWord : String) (isDraw : Bool)
  | playerLeft (playerId : String)
deriving DecidableEq, Repr

/-- Results delivered through a request's acknowledgement callback. -/
inductive CallbackResult where
  | failure (error : String)
  | joinSuccess (targetWord : String) (players : List String) (roomCode : String)
      (playerId : Option String)
  | createSuccess (roomCode : String) (playerId : String) (players : List String)
deriving DecidableEq, Repr

/-- The `makeGuess` handler (src/server.js lines 528-640): validate the
socket's tracked type and the room's status, append the guess, broadcast
`guessUpdate`, then check win and draw.  The client supplies `guessNumber`;
the 5-second delayed room teardown is outside the model. -/
def makeGuess (st : ServerState) (sockId roomCode guess : String) (guessNumber : Int) :
    ServerState × List ServerEvent :=
  if mapLookup sockId st.socketTypes ≠ some SocketType.game then
    (st, [])
  else
    match mapLookup roomCode st.gameRooms with
    | none => (st, [])
    | some room =>
      if room.status ≠ RoomStatus.playing then (st, [])
      else
        let playerNumber : Int := jsIndexOf room.players sockId + 1
        let guesses0 :=
          if (mapLookup sockId room.guesses).isSome then room.guesses
          else mapSet sockId [] room.guesses
        let playerGuesses := (mapLookup sockId guesses0).getD [] ++ [guess]
        let guesses1 := mapSet sockId playerGuesses guesses0
        let updateEv := ServerEvent.guessUpdate sockId playerNumber guess
          (guessNumber - 1) room.isQuickMatch
        let isCorrect := jsToUpperCase guess = room.targetWord
        if isCorrect then
          let room' := { room with guesses := guesses1, status := RoomStatus.finished }
          ({ st with gameRooms := mapSet roomCode room' st.gameRooms },
           [updateEv,
            ServerEvent.gameOver (some sockId) (some playerNumber) room.targetWord false])
        else if playerGuesses.length ≥ 6 then
          let otherPlayer := room.players.find? (fun id => id ≠ sockId)
          let otherPlayerGuesses :=
            (otherPlayer.bind (fun o => mapLookup o guesses1)).getD []
          if otherPlayerGuesses.length ≥ 6 then
            let room' := { room with guesses := guesses1, status := RoomStatus.finished }
            ({ st with gameRooms := mapSet roomCode room' st.gameRooms },
             [updateEv, ServerEvent.gameOver none none room.targetWord true])
          else
            ({ st with gameRooms := mapSet roomCode { room with guesses := guesses1 } st.gameRooms },
             [updateEv])
        else
          ({ st with gameRooms := mapSet roomCode { room with guesses := guesses1 } st.gameRooms },
           [updateEv])

/-- Character for one base-36 digit, as produced by JS `Number.toString(36)`. -/
def digitChar36 (d : Nat) : Char :=
  if d < 10 then Char.ofNat (48 + d) else Char.ofNat (87 + d)

/-- Models `Math.random().toString(36)` where the random number in `[0,1)` is given by
the digit list of its base-36 fractional expansion (shortest form, as JS
prints: no trailing zeros; the empty list is the value `0`, printed `"0"`). -/
def jsRandomToString36 (digits : List Nat) : String :=
  if digits = [] then "0" else String.mk ('0' :: '.' :: digits.map digitChar36)

/-- JS `String.prototype.substring(a, b)` (for `a ≤ b`). -/
def jsSubstring (s : String) (a b : Nat) : String :=
  String.mk ((s.toList.drop a).take (b - a))

/-- The function `generateRoomCode` (src/server.js lines 93-95):
`Math.random().toString(36).substring(2, 8).toUpperCase()`. -/
def generateRoomCode (digits : List Nat) : String :=
  jsToUpperCase (jsSubstring (jsRandomToString36 digits) 2 8)

/-- The per-player clearing step shared by `cleanupPlayer`'s remaining-player
loop and the Reclaimer (src/server.js lines 159-163 and 196-200): delete the
id's `socketRooms`, `socketTypes` and `activeConnections` entries. -/
def clearPlayerMappings (s : ServerState) (playerId : String) : ServerState :=
  { s with socketRooms := mapDelete playerId s.socketRooms,
           socketTypes := mapDelete playerId s.socketTypes,
           activeConnections := setDelete playerId s.activeConnections }

/-- The function `cleanupPlayer` (src/server.js lines 174-210): remove the player from the
active-connection set and the queue, then from its room; an emptied room, or a
quickmatch room left with one player, is deleted and the remaining players'
mappings (including their `activeConnections` entry) are cleared too. -/
def cleanupPlayer (st : ServerState) (playerId : String) : ServerState :=
  let st := { st with
    activeConnections := setDelete playerId st.activeConnections,
    matchmakingQueue := setDelete playerId st.matchmakingQueue }
  let st :=
    match mapLookup playerId st.socketRooms with
    | none => st
    | some roomCode =>
      let st :=
        match mapLookup roomCode st.gameRooms with
        | none => st
        | some room =>
          let players' := room.players.filter (fun id => id ≠ playerId)
          let room' := { room with players := players',
                                   guesses := mapDelete playerId room.guesses }
          if players'.length = 0 ∨ (room.isQuickMatch ∧ players'.length = 1) then
            let st := players'.foldl clearPlayerMappings st
            { st with gameRooms := mapDelete roomCode st.gameRooms }
          else
            { st with gameRooms := mapSet roomCode room' st.gameRooms }
      { st with socketRooms := mapDelete playerId st.socketRooms }
  { st with socketTypes := mapDelete playerId st.socketTypes }

/-- The ids of the sockets the transport layer reports as connected, in
registry order (`connectedSockets` in src/server.js lines 69-73). -/
def connectedIds (sockets : ConnMap) : List String :=
  (sockets.filter (fun e => e.2.connected)).map (fun e => e.1)

/-- The function `syncConnectionTracking` (src/server.js lines 68-90): run `cleanupPlayer`
on every tracked id no longer connected, then track every connected id that is
missing; returns the new state and the live-connection count it reports. -/
def syncConnectionTracking (st : ServerState) (sockets : ConnMap) :
    ServerState × Nat :=
  let st := st.activeConnections.foldl (fun s socketId =>
    if socketId ∈ s.activeConnections ∧ ¬ connConnected sockets socketId then
      cleanupPlayer s socketId
    else s) st
  let st := (connectedIds sockets).foldl (fun s socketId =>
    { s with activeConnections := setAdd socketId s.activeConnections }) st
  (st, (connectedIds sockets).length)

/-- The staleness test of one Reclaimer sweep (src/server.js lines 151-155):
older than 30 minutes, or no player's socket is connected. -/
def isStaleRoom (now : Nat) (sockets : ConnMap) (room : Room) : Bool :=
  (30 * 60 * 1000 < now - room.createdAt) ||
    room.players.all (fun playerId => ¬ connConnected sockets playerId)

/-- Sweep one room entry of the Reclaimer's iteration (src/server.js lines
157-166): a stale room has every player's mappings cleared and is deleted. -/
def sweepRoomEntry (sockets : ConnMap) (now : Nat) (s : ServerState)
    (entry : String × Room) : ServerState :=
  if isStaleRoom now sockets entry.2 then
    let s := entry.2.players.foldl clearPlayerMappings s
    { s with gameRooms := mapDelete entry.1 s.gameRooms }
  else s

/-- The function `cleanupInactiveRooms` (src/server.js lines 147-171): delete every stale
room, clearing each of its players' `socketRooms` / `socketTypes` /
`activeConnections` entries, then resynchronise connection tracking. -/
def cleanupInactiveRooms (st : ServerState) (sockets : ConnMap) (now : Nat) :
    ServerState :=
  let st := st.gameRooms.foldl (sweepRoomEntry sockets now) st
  (syncConnectionTracking st sockets).1

/-- The function `handleJoinRoom` (src/server.js lines 339-432).  The raw room code is
upper-cased (an empty string is falsy in JS and rejected); checks run in
source order: room exists, room not full, then already-joined. -/
def handleJoinRoom (st : ServerState) (sockId rawRoomCode : String) :
    ServerState × CallbackResult × List ServerEvent :=
  let roomCode := jsToUpperCase rawRoomCode
  if roomCode = "" then
    (st, CallbackResult.failure "Invalid room code", [])
  else
    match mapLookup roomCode st.gameRooms with
    | none => (st, CallbackResult.failure "Room not found", [])
    | some room =>
      if room.players.length ≥ 2 then
        (st, CallbackResult.failure "Room is full", [])
      else if sockId ∈ room.players then
        (st, CallbackResult.joinSuccess room.targetWord room.players roomCode none, [])
      else
        let players' := room.players ++ [sockId]
        let room' := { room with players := players' }
        let result := CallbackResult.joinSuccess room.targetWord players' roomCode
          (some sockId)
        let joinedEv := ServerEvent.playerJoined sockId players'
        if players'.length = 2 then
          let room'' := { room' with status := RoomStatus.playing }
          ({ st with gameRooms := mapSet roomCode room'' st.gameRooms,
                     socketRooms := mapSet sockId roomCode st.socketRooms,
                     socketTypes := mapSet sockId SocketType.game st.socketTypes },
           result,
           [joinedEv, ServerEvent.gameStart room.targetWord players' roomCode])
        else
          ({ st with gameRooms := mapSet roomCode room' st.gameRooms,
                     socketRooms := mapSet sockId roomCode st.socketRooms,
                     socketTypes := mapSet sockId SocketType.game st.socketTypes },
           result, [joinedEv])

/-- The `createRoom` handler (src/server.js lines 446-505): retry
`generateRoomCode` until the code is unused (`candidates` is the stream of
random draws; `none` models the unbounded retry loop never finding one), then
store a `waiting` room holding only the creator.  `rawWord` is the word drawn
from the Word Source, upper-cased by `getRandomWord`. -/
def handleCreateRoom (st : ServerState) (sockId : String)
    (candidates : List (List Nat)) (rawWord : String) (now : Nat) :
    Option (ServerState × CallbackResult × List ServerEvent) :=
  match candidates.find? (fun d => mapLookup (generateRoomCode d) st.gameRooms = none) with
  | none => none
  | some d =>
    let roomCode := generateRoomCode d
    let room : Room := {
      players := [sockId],
      targetWord := jsToUpperCase rawWord,
      status := RoomStatus.waiting,
      guesses := [],
      createdAt := now,
      isQuickMatch := false }
    some ({ st with gameRooms := mapSet roomCode room st.gameRooms,
                    socketRooms := mapSet sockId roomCode st.socketRooms,
                    socketTypes := mapSet sockId SocketType.game st.socketTypes },
          CallbackResult.createSuccess roomCode sockId [sockId],
          [ServerEvent.roomCreated roomCode sockId [sockId],
           ServerEvent.waitingForPlayer])

/-- The function `createGameRoom` (src/server.js lines 103-144): one code draw (no
uniqueness retry), re-verify both sockets are connected, then store a
`playing` quickmatch room and map both players to it. -/
def createGameRoom (st : ServerState) (player1Id player2Id : String)
    (sockets : ConnMap) (digits : List Nat) (rawWord : String) (now : Nat) :
    ServerState × Option String :=
  let roomCode := generateRoomCode digits
  if connConnected sockets player1Id ∧ connConnected sockets player2Id then
    let room : Room := {
      players := [player1Id, player2Id],
      targetWord := jsToUpperCase rawWord,
      status := RoomStatus.playing,
      guesses := [],
      createdAt := now,
      isQuickMatch := true }
    ({ st with gameRooms := mapSet roomCode room st.gameRooms,
               socketRooms := mapSet player2Id roomCode
                 (mapSet player1Id roomCode st.socketRooms) },
     some roomCode)
  else (st, none)

/-- The function `handleMatchmaking` (src/server.js lines 213-336).  The transport registry
is read twice — when filtering the queue (`socketsAtFilter`) and when
re-verifying the two selected players (`socketsAtPair`, also used inside
`createGameRoom`) — and a socket can drop between the two reads, which is what
the failure branches defend against.  `statsOk = false` models the awaited
`PlayerStats.getStats` call throwing, which lands in the `catch` block. -/
def handleMatchmaking (st : ServerState) (sockId : String)
    (socketsAtFilter socketsAtPair : ConnMap) (digits : List Nat)
    (rawWord : String) (now : Nat) (statsOk : Bool) :
    ServerState × List ServerEvent :=
  if ¬ (mapLookup sockId socketsAtFilter).elim false (fun s => s.userId) then
    (st, [ServerEvent.matchmakingError "Not authenticated"])
  else
    let st := cleanupPlayer st sockId
    let st := { st with socketTypes := mapSet sockId SocketType.matchmaking st.socketTypes }
    let st := { st with matchmakingQueue :=
      st.matchmakingQueue.filter (fun playerId => connLive socketsAtFilter playerId) }
    let (st, evs) :=
      if sockId ∈ st.matchmakingQueue then (st, [])
      else ({ st with matchmakingQueue := st.matchmakingQueue ++ [sockId] },
            [ServerEvent.matchmakingJoined])
    match st.matchmakingQueue with
    | player1 :: player2 :: rest =>
      let st := { st with matchmakingQueue := rest }
      if connLive socketsAtPair player1 ∧ connLive socketsAtPair player2 then
        let (st, roomCode?) := createGameRoom st player1 player2 socketsAtPair
          digits rawWord now
        match roomCode? with
        | some roomCode =>
          let types' := mapSet player2 SocketType.game
            (mapSet player1 SocketType.game st.socketTypes)
          let st := { st with socketTypes := types' }
          if statsOk then
            let room := (mapLookup roomCode st.gameRooms).getD {
              players := [], targetWord := "", status := RoomStatus.playing,
              guesses := [], createdAt := now, isQuickMatch := true }
            (st, evs ++
              [ServerEvent.gameStart room.targetWord room.players roomCode,
               ServerEvent.gameStart room.targetWord room.players roomCode])
          else
            let (st, evs) :=
              if connConnected socketsAtPair player1 then
                ({ st with socketTypes := mapSet player1 SocketType.matchmaking st.socketTypes,
                           matchmakingQueue := player1 :: st.matchmakingQueue },
                 evs ++ [ServerEvent.matchmakingError "Failed to start game"])
              else (st, evs)
            if connConnected socketsAtPair player2 then
              ({ st with socketTypes := mapSet player2 SocketType.matchmaking st.socketTypes,
                         matchmakingQueue := player2 :: st.matchmakingQueue },
               evs ++ [ServerEvent.matchmakingError "Failed to start game"])
            else (st, evs)
        | none =>
          let (st, evs) :=
            if connConnected socketsAtPair player1 then
              ({ st with socketTypes := mapSet player1 SocketType.matchmaking st.socketTypes,
                         matchmakingQueue := player1 :: st.matchmakingQueue },
               evs ++ [ServerEvent.matchmakingError "Failed to start game"])
            else (st, evs)
          if connConnected socketsAtPair player2 then
            ({ st with socketTypes := mapSet player2 SocketType.matchmaking st.socketTypes,
                       matchmakingQueue := player2 :: st.matchmakingQueue },
             evs ++ [ServerEvent.matchmakingError "Failed to start game"])
          else (st, evs)
      else
        let st :=
          if connLive socketsAtPair player1 then
            { st with socketTypes := mapSet player1 SocketType.matchmaking st.socketTypes,
                      matchmakingQueue := player1 :: st.matchmakingQueue }
          else st
        let st :=
          if connLive socketsAtPair player2 then
            { st with socketTypes := mapSet player2 SocketType.matchmaking st.socketTypes,
                      matchmakingQueue := player2 :: st.matchmakingQueue }
          else st
        (st, evs)
    | _ => (st, evs)

/-! ## Concrete rooms, states and transport views used in the theorems -/

/-- A concrete two-player quickmatch room used to instantiate the theorems. -/
def sampleRoom : Room :=
  { players := ["A", "B"], targetWord := "CRANE", status := RoomStatus.playing,
    guesses := [], createdAt := 0, isQuickMatch := true }

/-- A concrete server state holding `sampleRoom` under code `"ROOM01"`. -/
def sampleState : ServerState :=
  { gameRooms := [("ROOM01", sampleRoom)], matchmakingQueue := [],
    activeConnections := ["A", "B"],
    socketRooms := [("A", "ROOM01"), ("B", "ROOM01")],
    socketTypes := [("A", SocketType.game), ("B", SocketType.game)] }

/-- A second room whose members are `"C"` and `"D"`. -/
def roomCD : Room :=
  { players := ["C", "D"], targetWord := "SLATE", status := RoomStatus.playing,
    guesses := [], createdAt := 0, isQuickMatch := false }

/-- A state with two playing rooms, so that `"C"` holds socket type `game`
while not being a member of `"ROOM01"`. -/
def twoRoomState : ServerState :=
  { gameRooms := [("ROOM01", sampleRoom), ("ROOMCD", roomCD)], matchmakingQueue := [],
    activeConnections := ["A", "B", "C", "D"],
    socketRooms := [("A", "ROOM01"), ("B", "ROOM01"), ("C", "ROOMCD"), ("D", "ROOMCD")],
    socketTypes := [("A", SocketType.game), ("B", SocketType.game),
                    ("C", SocketType.game), ("D", SocketType.game)] }

/-- A one-player manually-created room still in `waiting`. -/
def waitingRoom : Room :=
  { players := ["E"], targetWord := "CRANE", status := RoomStatus.waiting,
    guesses := [], createdAt := 0, isQuickMatch := false }

/-- A state holding only `waitingRoom` under code `"WAIT01"`. -/
def waitingRoomState : ServerState :=
  { gameRooms := [("WAIT01", waitingRoom)], matchmakingQueue := [],
    activeConnections := ["E"], socketRooms := [("E", "WAIT01")],
    socketTypes := [("E", SocketType.game)] }

/-- A state whose matchmaking queue holds the single connection `"Q"`. -/
def queuedState : ServerState :=
  { gameRooms := [], matchmakingQueue := ["Q"], activeConnections := ["Q"],
    socketRooms := [], socketTypes := [("Q", SocketType.matchmaking)] }

/-- The state `createRoom` by `"Q"` produces out of `queuedState`. -/
def queuedStateAfterCreate : ServerState :=
  { gameRooms := [("123456",
      { players := ["Q"], targetWord := "CRANE", status := RoomStatus.waiting,
        guesses := [], createdAt := 0, isQuickMatch := false })],
    matchmakingQueue := ["Q"], activeConnections := ["Q"],
    socketRooms := [("Q", "123456")], socketTypes := [("Q", SocketType.game)] }

/-- A playing room in which `"A"` already has 6 recorded guesses while `"B"`
has none. -/
def capRoom : Room :=
  { players := ["A", "B"], targetWord := "CRANE", status := RoomStatus.playing,
    guesses := [("A", ["AAAAA", "BBBBB", "CCCCC", "DDDDD", "EEEEE", "FFFFF"])],
    createdAt := 0, isQuickMatch := true }

/-- A state holding `capRoom` under code `"CAP001"`. -/
def capState : ServerState :=
  { gameRooms := [("CAP001", capRoom)], matchmakingQueue := [],
    activeConnections := ["A", "B"],
    socketRooms := [("A", "CAP001"), ("B", "CAP001")],
    socketTypes := [("A", SocketType.game), ("B", SocketType.game)] }

/-- The queue `handleMatchmaking` works on just before pairing: the caller's
stale state cleaned up, dead entries filtered out, and the caller appended if
absent (src/server.js lines 226-244). -/
def preparedQueue (st : ServerState) (sockId : String) (socketsAtFilter : ConnMap) :
    List String :=
  let q := (cleanupPlayer st sockId).matchmakingQueue.filter
    (fun playerId => connLive socketsAtFilter playerId)
  if sockId ∈ q then q else q ++ [sockId]

/-- State for the C7 witness: `"P1"` already queued, `"P2"` about to join. -/
def mmState : ServerState :=
  { gameRooms := [], matchmakingQueue := ["P1"], activeConnections := ["P1", "P2"],
    socketRooms := [], socketTypes := [("P1", SocketType.matchmaking)] }

/-- Transport view when the queue is filtered: both players live. -/
def mmSocketsFilter : ConnMap :=
  [("P1", { connected := true, userId := true }),
   ("P2", { connected := true, userId := true })]

/-- Transport view at pairing re-verification: `"P1"` has dropped. -/
def mmSocketsPair : ConnMap :=
  [("P1", { connected := false, userId := true }),
   ("P2", { connected := true, userId := true })]

/-- The stale-room predicate combining room absence with all players cleared. -/
def sweptOut (code : String) (players : List String) (s : ServerState) : Prop :=
  mapLookup code s.gameRooms = none ∧
  ∀ p ∈ players, mapLookup p s.socketRooms = none ∧ mapLookup p s.socketTypes = none

/-- Transport registry with every socket of `sampleState` gone. -/
def deadSockets : ConnMap := []

/-- The `/health` endpoint's connection figures (src/server.js lines 767-776):
it runs `syncConnectionTracking` first and then reports the tracked count and
the actual live count. -/
def healthReport (st : ServerState) (sockets : ConnMap) : Nat × Nat :=
  let (st', n) := syncConnectionTracking st sockets
  (st'.activeConnections.length, n)

/-- The quickmatch pair of the C10 scenario. -/
def pairRoom : Room :=
  { players := ["p", "q"], targetWord := "CRANE", status := RoomStatus.playing,
    guesses := [], createdAt := 0, isQuickMatch := true }

/-- State holding `pairRoom`, both players tracked. -/
def pairState : ServerState :=
  { gameRooms := [("R1", pairRoom)], matchmakingQueue := [],
    activeConnections := ["p", "q"],
    socketRooms := [("p", "R1"), ("q", "R1")],
    socketTypes := [("p", SocketType.game), ("q", SocketType.game)] }

/-- Transport view in which `"p"` has dropped but `"q"` is still live. -/
def pairSockets : ConnMap :=
  [("p", { connected := false, userId := true }),
   ("q", { connected := true, userId := true })]

/-! ## Basic lemmas about the map / set / indexOf models -/

theorem mapLookup_mapSet_self (k : String) (v : α) (l : List (String × α)) :
    mapLookup k (mapSet k v l) = some v := by
  induction l with
  | nil => simp [mapSet, mapLookup]
  | cons e rest ih =>
    obtain ⟨k', v'⟩ := e
    by_cases h : k' = k
    · simp [mapSet, h, mapLookup]
    · simp [mapSet, h, mapLookup, ih]

theorem mapLookup_mapSet_ne {k' k : String} (hne : k' ≠ k) (v : α) (l : List (String × α)) :
    mapLookup k' (mapSet k v l) = mapLookup k' l := by
  have hkk' : ¬ k = k' := fun h => hne h.symm
  induction l with
  | nil => simp [mapSet, mapLookup, hkk']
  | cons e rest ih =>
    obtain ⟨ka, va⟩ := e
    by_cases h : ka = k
    · subst h
      simp [mapSet, mapLookup, hkk']
    · simp [mapSet, h, mapLookup, ih]

theorem mapLookup_mapDelete_self (k : String) (l : List (String × α)) :
    mapLookup k (mapDelete k l) = none := by
  induction l with
  | nil => rfl
  | cons e rest ih =>
    obtain ⟨ka, va⟩ := e
    by_cases h : ka = k
    · simpa [mapDelete, h] using ih
    · simpa [mapDelete, mapLookup, h] using ih

theorem mapDelete_cons (k ka : String) (va : α) (rest : List (String × α)) :
    mapDelete k ((ka, va) :: rest) =
      if ka = k then mapDelete k rest else (ka, va) :: mapDelete k rest := by
  by_cases h : ka = k <;> simp [mapDelete, List.filter_cons, h]

theorem mapLookup_mapDelete_ne {k' k : String} (hne : k' ≠ k) (l : List (String × α)) :
    mapLookup k' (mapDelete k l) = mapLookup k' l := by
  induction l with
  | nil => rfl
  | cons e rest ih =>
    obtain ⟨ka, va⟩ := e
    rw [mapDelete_cons]
    by_cases h : ka = k
    · rw [if_pos h, ih]
      have hka : ¬ ka = k' := fun hh => hne (hh.symm.trans h)
      simp [mapLookup, hka]
    · rw [if_neg h]
      simp [mapLookup, ih]

theorem jsIndexOf_nonneg_of_mem : ∀ {l : List String} {x : String},
    x ∈ l → 0 ≤ jsIndexOf l x
  | a :: rest, x, h => by
    by_cases hax : a = x
    · simp [jsIndexOf, hax]
    · have hx : x ∈ rest := by
        cases List.mem_cons.mp h with
        | inl h1 => exact absurd h1.symm hax
        | inr h1 => exact h1
      have hr := jsIndexOf_nonneg_of_mem hx
      have hne : jsIndexOf rest x ≠ -1 := by omega
      simp only [jsIndexOf, if_neg hax, if_neg hne]
      omega

/-! ## C1: a winning guess finishes the room and broadcasts the winner -/

/-- Claim C1: For a room in status `playing` and a member connection (tracked
with socket type `game`), a guess whose upper-casing equals the target word
sets the room's status to `finished` and broadcasts `gameOver` with the
submitter's id as winner, the submitter's 1-based player number, and the
target word — at any guess number `k` with `1 ≤ k ≤ 6`. -/
theorem winning_guess_finishes_room (st : ServerState) (sockId roomCode guess : String)
    (gn : Int) (room : Room) (k : Nat)
    (htype : mapLookup sockId st.socketTypes = some SocketType.game)
    (hroom : mapLookup roomCode st.gameRooms = some room)
    (hplaying : room.status = RoomStatus.playing)
    (hmem : sockId ∈ room.players)
    (hwin : jsToUpperCase guess = room.targetWord)
    (hk1 : 1 ≤ k) (hk6 : k ≤ 6)
    (hcount : ((mapLookup sockId room.guesses).getD []).length = k - 1) :
    (∃ room', mapLookup roomCode (makeGuess st sockId roomCode guess gn).1.gameRooms
        = some room' ∧ room'.status = RoomStatus.finished) ∧
    (makeGuess st sockId roomCode guess gn).2 =
      [ServerEvent.guessUpdate sockId (jsIndexOf room.players sockId + 1) guess
         (gn - 1) room.isQuickMatch,
       ServerEvent.gameOver (some sockId) (some (jsIndexOf room.players sockId + 1))
         room.targetWord false] ∧
    1 ≤ jsIndexOf room.players sockId + 1 := by
  have hidx := jsIndexOf_nonneg_of_mem hmem
  refine ⟨?_, ?_, by omega⟩
  · simp [makeGuess, htype, hroom, hplaying, hwin, mapLookup_mapSet_self]
  · simp [makeGuess, htype, hroom, hplaying, hwin]

/-- Witness for C1: player `"A"` wins `sampleRoom` with the guess `"crane"`. -/
theorem winning_guess_finishes_room_witness :
    (∃ room', mapLookup "ROOM01" (makeGuess sampleState "A" "ROOM01" "crane" 1).1.gameRooms
        = some room' ∧ room'.status = RoomStatus.finished) ∧
    (makeGuess sampleState "A" "ROOM01" "crane" 1).2 =
      [ServerEvent.guessUpdate "A" (jsIndexOf sampleRoom.players "A" + 1) "crane"
         (1 - 1) sampleRoom.isQuickMatch,
       ServerEvent.gameOver (some "A") (some (jsIndexOf sampleRoom.players "A" + 1))
         sampleRoom.targetWord false] ∧
    1 ≤ jsIndexOf sampleRoom.players "A" + 1 :=
  winning_guess_finishes_room sampleState "A" "ROOM01" "crane" 1 sampleRoom 1
    (by decide) (by decide) (by decide) (by decide) (by decide)
    (by decide) (by decide) (by decide)

/-! ## C2: the broadcast guess number comes from the client counter -/

/-- Lookup after the "ensure key" step of `makeGuess` gives the old sequence. -/
theorem mapLookup_ensure_getD (k : String) (l : List (String × List String)) :
    (mapLookup k (if (mapLookup k l).isSome then l else mapSet k [] l)).getD [] =
      (mapLookup k l).getD [] := by
  cases h : mapLookup k l with
  | some v => simp [h]
  | none => simp [h, mapLookup_mapSet_self]

/-- Claim C2 counterexample: In `sampleState`, player `"A"` submits the wrong
guess `"AROSE"` with a client-supplied `guessNumber` of `5`.  The server's
guess sequence after the append has length `1`, yet the `guessUpdate`
broadcast carries `4 = 5 - 1`, a value derived from the client counter — not
the server-computed count `1`. -/
theorem guessUpdate_client_counter_counterexample :
    (makeGuess sampleState "A" "ROOM01" "AROSE" 5).2 =
      [ServerEvent.guessUpdate "A" 1 "AROSE" 4 true] ∧
    (mapLookup "ROOM01" (makeGuess sampleState "A" "ROOM01" "AROSE" 5).1.gameRooms).map
        (fun r => ((mapLookup "A" r.guesses).getD []).length) = some 1 ∧
    (4 : Int) ≠ (1 : Int) := by decide

/-- Claim C2 amended: For every accepted guess, the `guessUpdate` broadcast
carries the client-supplied `guessNumber` minus one — a value derived from
the client's counter — while the server-side sequence is extended by exactly
the submitted guess (so the server-computed guess number, the post-append
length, is independent of the broadcast value). -/
theorem guessUpdate_carries_client_counter (st : ServerState)
    (sockId roomCode guess : String) (gn : Int) (room : Room)
    (htype : mapLookup sockId st.socketTypes = some SocketType.game)
    (hroom : mapLookup roomCode st.gameRooms = some room)
    (hplaying : room.status = RoomStatus.playing) :
    (makeGuess st sockId roomCode guess gn).2.head? =
      some (ServerEvent.guessUpdate sockId (jsIndexOf room.players sockId + 1) guess
        (gn - 1) room.isQuickMatch) ∧
    (mapLookup roomCode (makeGuess st sockId roomCode guess gn).1.gameRooms).map
        (fun r => (mapLookup sockId r.guesses).getD []) =
      some ((mapLookup sockId room.guesses).getD [] ++ [guess]) := by
  simp only [makeGuess, htype, hroom, hplaying]
  split_ifs with h1 h2 h3 h4 <;>
    simp_all [mapLookup_mapSet_self, mapLookup_ensure_getD]

/-- Witness for the C2 amended theorem at a concrete input. -/
theorem guessUpdate_carries_client_counter_witness :
    (makeGuess sampleState "A" "ROOM01" "AROSE" 5).2.head? =
      some (ServerEvent.guessUpdate "A" (jsIndexOf sampleRoom.players "A" + 1) "AROSE"
        (5 - 1) sampleRoom.isQuickMatch) ∧
    (mapLookup "ROOM01" (makeGuess sampleState "A" "ROOM01" "AROSE" 5).1.gameRooms).map
        (fun r => (mapLookup "A" r.guesses).getD []) =
      some ((mapLookup "A" sampleRoom.guesses).getD [] ++ ["AROSE"]) :=
  guessUpdate_carries_client_counter sampleState "A" "ROOM01" "AROSE" 5 sampleRoom
    (by decide) (by decide) (by decide)

/-! ## C3: which guess submissions are rejected without mutation -/

/-- Claim C3 counterexample: Connection `"C"` is not a member of room
`"ROOM01"`'s players, yet its guess addressed to `"ROOM01"` is broadcast (with
player number `0`) and appended to that room's `guesses` mapping: membership
in the target room is never checked, only the socket's tracked type. -/
theorem nonmember_guess_mutates_counterexample :
    (makeGuess twoRoomState "C" "ROOM01" "AROSE" 1).2 =
      [ServerEvent.guessUpdate "C" 0 "AROSE" 0 true] ∧
    (mapLookup "ROOM01" (makeGuess twoRoomState "C" "ROOM01" "AROSE" 1).1.gameRooms).map
        (fun r => (mapLookup "C" r.guesses).getD []) = some ["AROSE"] ∧
    "C" ∉ sampleRoom.players := by decide

/-- Claim C3 amended: A guess is rejected — no broadcast, no state mutation —
when the submitter's tracked socket type is not `game`, or when the addressed
room is absent or not in status `playing`.  (Membership of the addressed
room's `players` is not part of the check.) -/
theorem guess_rejected_without_mutation (st : ServerState)
    (sockId roomCode guess : String) (gn : Int)
    (h : mapLookup sockId st.socketTypes ≠ some SocketType.game ∨
         ∀ room, mapLookup roomCode st.gameRooms = some room →
           room.status ≠ RoomStatus.playing) :
    makeGuess st sockId roomCode guess gn = (st, []) := by
  by_cases h1 : mapLookup sockId st.socketTypes = some SocketType.game
  · rcases h with h | h
    · exact absurd h1 h
    · cases hr : mapLookup roomCode st.gameRooms with
      | none => simp [makeGuess, hr]
      | some room => simp [makeGuess, h1, hr, h room hr]
  · simp [makeGuess, h1]

/-- Witness for the C3 amended theorem: a connection with no tracked socket
type submits to `sampleState` and nothing changes. -/
theorem guess_rejected_without_mutation_witness :
    makeGuess sampleState "Z" "ROOM01" "AROSE" 1 = (sampleState, []) :=
  guess_rejected_without_mutation sampleState "Z" "ROOM01" "AROSE" 1
    (Or.inl (by decide))

/-! ## C4: idempotence of joinRoom for an already-joined player -/

/-- Claim C4 counterexample: `"B"` is already a member of room `"ROOM01"`, which
holds 2 players; a repeated `joinRoom` by `"B"` returns the `Room is full`
error, not a success payload: the full-room check runs before the
already-joined check, so idempotent re-join fails for a full room. -/
theorem rejoin_full_room_counterexample :
    handleJoinRoom twoRoomState "B" "ROOM01" =
      (twoRoomState, CallbackResult.failure "Room is full", []) ∧
    "B" ∈ sampleRoom.players ∧ sampleRoom.players.length = 2 := by decide

/-- Claim C4 amended: Re-join is idempotent only while the room holds fewer than
2 players: an already-joined player's `joinRoom` then returns the success
payload (target word, players, room code — with no `playerId` field, unlike a
fresh join), mutates nothing, and a second identical call returns the same
result.  With 2 players the `Full` check precedes the membership check. -/
theorem rejoin_idempotent_when_not_full (st : ServerState)
    (sockId rawCode : String) (room : Room)
    (hcode : jsToUpperCase rawCode ≠ "")
    (hroom : mapLookup (jsToUpperCase rawCode) st.gameRooms = some room)
    (hlt : room.players.length < 2)
    (hmem : sockId ∈ room.players) :
    handleJoinRoom st sockId rawCode =
      (st, CallbackResult.joinSuccess room.targetWord room.players
        (jsToUpperCase rawCode) none, []) ∧
    handleJoinRoom (handleJoinRoom st sockId rawCode).1 sockId rawCode =
      handleJoinRoom st sockId rawCode := by
  have h2 : ¬ (room.players.length ≥ 2) := not_le.mpr hlt
  have h1 : handleJoinRoom st sockId rawCode =
      (st, CallbackResult.joinSuccess room.targetWord room.players
        (jsToUpperCase rawCode) none, []) := by
    simp [handleJoinRoom, hcode, hroom, h2, hmem]
  refine ⟨h1, ?_⟩
  rw [h1]
  exact h1

/-- Witness for the C4 amended theorem: the creator `"E"` re-joins its own
one-player room (through the lower-case code `"wait01"`). -/
theorem rejoin_idempotent_when_not_full_witness :
    handleJoinRoom waitingRoomState "E" "wait01" =
      (waitingRoomState, CallbackResult.joinSuccess waitingRoom.targetWord
        waitingRoom.players (jsToUpperCase "wait01") none, []) ∧
    handleJoinRoom (handleJoinRoom waitingRoomState "E" "wait01").1 "E" "wait01" =
      handleJoinRoom waitingRoomState "E" "wait01" :=
  rejoin_idempotent_when_not_full waitingRoomState "E" "wait01" waitingRoom
    (by decide) (by decide) (by decide) (by decide)

/-! ## C5: room entry does not evict a connection from the queue -/

/-- Claim C5 counterexample: Connection `"Q"` sits in the matchmaking queue and
successfully creates a room (code `"123456"`): afterwards `"Q"` is a player of
the new room *and* still a member of the queue — `createRoom` (and likewise
`joinRoom`) never evicts the id from the queue, so the one-role-per-connection
invariant is violated. -/
theorem create_room_keeps_queue_counterexample :
    "Q" ∈ queuedState.matchmakingQueue ∧
    (handleCreateRoom queuedState "Q" [[1, 2, 3, 4, 5, 6]] "crane" 0).map
        (fun r => (r.1.matchmakingQueue,
                   (mapLookup "123456" r.1.gameRooms).map Room.players)) =
      some (["Q"], some ["Q"]) := by decide

/-- Claim C5 amended: Neither `joinRoom` nor a successful `createRoom` touches
the matchmaking queue: the queue after the call is exactly the queue before
it, so a queued connection that enters a room keeps its queue slot (no
eviction happens; the two roles can overlap). -/
theorem room_entry_leaves_queue_unchanged (st : ServerState)
    (sockId rawCode : String) (cands : List (List Nat)) (rawWord : String) (now : Nat)
    (st' : ServerState) (res : CallbackResult) (evs : List ServerEvent)
    (h : handleCreateRoom st sockId cands rawWord now = some (st', res, evs)) :
    (handleJoinRoom st sockId rawCode).1.matchmakingQueue = st.matchmakingQueue ∧
    st'.matchmakingQueue = st.matchmakingQueue := by
  constructor
  · simp only [handleJoinRoom]
    split
    · rfl
    · split
      · rfl
      · split
        · rfl
        · split
          · rfl
          · split
            · rfl
            · rfl
  · simp only [handleCreateRoom] at h
    cases hfind : cands.find?
        (fun d => mapLookup (generateRoomCode d) st.gameRooms = none) with
    | none => rw [hfind] at h; exact absurd h (by simp)
    | some d =>
      rw [hfind] at h
      obtain ⟨h1, -⟩ := Prod.mk.injEq .. ▸ Option.some.inj h
      rw [← h1]

/-- Witness for the C5 amended theorem at the concrete `queuedState`. -/
theorem room_entry_leaves_queue_unchanged_witness :
    (handleJoinRoom queuedState "Q" "NOPE").1.matchmakingQueue =
      queuedState.matchmakingQueue ∧
    queuedStateAfterCreate.matchmakingQueue = queuedState.matchmakingQueue :=
  room_entry_leaves_queue_unchanged queuedState "Q" "NOPE" [[1, 2, 3, 4, 5, 6]]
    "crane" 0 queuedStateAfterCreate
    (CallbackResult.createSuccess "123456" "Q" ["Q"])
    [ServerEvent.roomCreated "123456" "Q" ["Q"], ServerEvent.waitingForPlayer]
    (by decide)

/-! ## C6: the per-player 6-guess cap is not enforced -/

/-- Claim C6 counterexample: `"A"` has 6 recorded guesses; since `"B"` has fewer
than 6 the room stays `playing`, and `"A"`'s next (wrong) guess is appended
anyway: the sequence grows to 7 entries — the cap is never enforced on
append. -/
theorem seventh_guess_appended_counterexample :
    ((mapLookup "A" capRoom.guesses).getD []).length = 6 ∧
    (mapLookup "CAP001" (makeGuess capState "A" "CAP001" "GGGGG" 7).1.gameRooms).map
        (fun r => (((mapLookup "A" r.guesses).getD []).length, r.status)) =
      some (7, RoomStatus.playing) := by decide

/-- Claim C6 amended: The append is unconditional while the room is `playing`:
a player who already holds 6 recorded guesses gets a 7th one appended by the
next accepted guess (sequences stop growing only because the room leaves the
`playing` status). -/
theorem guess_append_uncapped (st : ServerState)
    (sockId roomCode guess : String) (gn : Int) (room : Room)
    (htype : mapLookup sockId st.socketTypes = some SocketType.game)
    (hroom : mapLookup roomCode st.gameRooms = some room)
    (hplaying : room.status = RoomStatus.playing)
    (hlen : ((mapLookup sockId room.guesses).getD []).length = 6) :
    (mapLookup roomCode (makeGuess st sockId roomCode guess gn).1.gameRooms).map
        (fun r => ((mapLookup sockId r.guesses).getD []).length) = some 7 := by
  simp only [makeGuess, htype, hroom, hplaying]
  split_ifs with h1 h2 h3 h4 <;>
    simp_all [mapLookup_mapSet_self, mapLookup_ensure_getD]

/-- Witness for the C6 amended theorem: the concrete 7th guess in `capState`. -/
theorem guess_append_uncapped_witness :
    (mapLookup "CAP001" (makeGuess capState "A" "CAP001" "GGGGG" 7).1.gameRooms).map
        (fun r => ((mapLookup "A" r.guesses).getD []).length) = some 7 :=
  guess_append_uncapped capState "A" "CAP001" "GGGGG" 7 capRoom
    (by decide) (by decide) (by decide) (by decide)

/-! ## C7: the pairing-failure path re-queues the survivor at the head -/

/-- Claim C7: If the two queue heads `p1, p2` are selected for pairing but
exactly one of them is still live when liveness is re-verified, the pairing
branch is abandoned and the surviving player is pushed back onto the *head*
of the queue (`unshift`), not dropped and not appended at the tail. -/
theorem pairing_failure_requeues_survivor_at_head (st : ServerState)
    (sockId : String) (socketsAtFilter socketsAtPair : ConnMap)
    (digits : List Nat) (rawWord : String) (now : Nat) (statsOk : Bool)
    (p1 p2 : String) (rest : List String)
    (hauth : (mapLookup sockId socketsAtFilter).elim false (fun s => s.userId) = true)
    (hq : preparedQueue st sockId socketsAtFilter = p1 :: p2 :: rest)
    (hone : connLive socketsAtPair p1 ≠ connLive socketsAtPair p2) :
    (handleMatchmaking st sockId socketsAtFilter socketsAtPair digits rawWord now
        statsOk).1.matchmakingQueue =
      (if connLive socketsAtPair p1 then p1 else p2) :: rest := by
  simp only [preparedQueue] at hq
  simp only [handleMatchmaking, hauth]
  by_cases hmem : sockId ∈ (cleanupPlayer st sockId).matchmakingQueue.filter
      (fun playerId => connLive socketsAtFilter playerId)
  · rw [if_pos hmem] at hq
    simp only [hmem, if_true, hq]
    cases h1 : connLive socketsAtPair p1 <;> cases h2 : connLive socketsAtPair p2 <;>
      simp_all
  · rw [if_neg hmem] at hq
    simp only [hmem, if_false, hq]
    cases h1 : connLive socketsAtPair p1 <;> cases h2 : connLive socketsAtPair p2 <;>
      simp_all

/-- Witness for C7: `"P2"` joins, `("P1", "P2")` are selected, `"P1"` is found
dead, and the surviving `"P2"` ends up at the head of the queue. -/
theorem pairing_failure_requeues_survivor_at_head_witness :
    (handleMatchmaking mmState "P2" mmSocketsFilter mmSocketsPair [1] "crane" 0
        true).1.matchmakingQueue =
      (if connLive mmSocketsPair "P1" then "P1" else "P2") :: [] :=
  pairing_failure_requeues_survivor_at_head mmState "P2" mmSocketsFilter
    mmSocketsPair [1] "crane" 0 true "P1" "P2" []
    (by decide) (by decide) (by decide)

/-! ## C8: one Reclaimer sweep removes every room stale at its start -/

theorem mapLookup_mapDelete_of_none {k k' : String} {l : List (String × α)}
    (h : mapLookup k l = none) : mapLookup k (mapDelete k' l) = none := by
  by_cases hk : k = k'
  · subst hk; exact mapLookup_mapDelete_self k l
  · rw [mapLookup_mapDelete_ne hk]; exact h

theorem foldl_preserve {α : Type} {P : ServerState → Prop} {f : ServerState → α → ServerState}
    (hstep : ∀ s x, P s → P (f s x)) :
    ∀ (l : List α) (s : ServerState), P s → P (l.foldl f s)
  | [], _, h => h
  | x :: l, s, h => foldl_preserve hstep l (f s x) (hstep s x h)

theorem clearPlayerMappings_preserves_cleared {q : String} (s : ServerState) (p : String)
    (h1 : mapLookup q s.socketRooms = none) (h2 : mapLookup q s.socketTypes = none) :
    mapLookup q (clearPlayerMappings s p).socketRooms = none ∧
    mapLookup q (clearPlayerMappings s p).socketTypes = none :=
  ⟨mapLookup_mapDelete_of_none h1, mapLookup_mapDelete_of_none h2⟩

theorem foldl_clearPlayerMappings_gameRooms :
    ∀ (l : List String) (s : ServerState),
      (l.foldl clearPlayerMappings s).gameRooms = s.gameRooms
  | [], _ => rfl
  | _ :: l, s => foldl_clearPlayerMappings_gameRooms l _

/-- After clearing all of `l`'s mappings, every member of `l` is cleared. -/
theorem foldl_clearPlayerMappings_establishes :
    ∀ (l : List String) (s : ServerState) (p : String), p ∈ l →
      mapLookup p (l.foldl clearPlayerMappings s).socketRooms = none ∧
      mapLookup p (l.foldl clearPlayerMappings s).socketTypes = none
  | x :: l, s, p, hmem => by
    rcases List.mem_cons.mp hmem with h | h
    · subst h
      exact foldl_preserve
        (P := fun s => mapLookup p s.socketRooms = none ∧ mapLookup p s.socketTypes = none)
        (fun s x hp => clearPlayerMappings_preserves_cleared s x hp.1 hp.2)
        l (clearPlayerMappings s p)
        ⟨mapLookup_mapDelete_self p _, mapLookup_mapDelete_self p _⟩
    · exact foldl_clearPlayerMappings_establishes l (clearPlayerMappings s x) p h

theorem foldl_clear_preserves_cleared (q : String) (l : List String) (s : ServerState)
    (h1 : mapLookup q s.socketRooms = none) (h2 : mapLookup q s.socketTypes = none) :
    mapLookup q (l.foldl clearPlayerMappings s).socketRooms = none ∧
    mapLookup q (l.foldl clearPlayerMappings s).socketTypes = none :=
  foldl_preserve
    (P := fun s => mapLookup q s.socketRooms = none ∧ mapLookup q s.socketTypes = none)
    (fun s x hp => clearPlayerMappings_preserves_cleared s x hp.1 hp.2) l s ⟨h1, h2⟩

theorem cleanupPlayer_preserves_cleared {q : String} (s : ServerState) (pid : String)
    (h1 : mapLookup q s.socketRooms = none) (h2 : mapLookup q s.socketTypes = none) :
    mapLookup q (cleanupPlayer s pid).socketRooms = none ∧
    mapLookup q (cleanupPlayer s pid).socketTypes = none := by
  simp only [cleanupPlayer]
  split
  · exact ⟨h1, mapLookup_mapDelete_of_none h2⟩
  · rename_i roomCode hsr
    split
    · exact ⟨mapLookup_mapDelete_of_none h1, mapLookup_mapDelete_of_none h2⟩
    · rename_i room hgr
      split
      · exact ⟨mapLookup_mapDelete_of_none
            (foldl_clear_preserves_cleared q (room.players.filter (fun id => id ≠ pid))
              { s with matchmakingQueue := setDelete pid s.matchmakingQueue,
                       activeConnections := setDelete pid s.activeConnections } h1 h2).1,
          mapLookup_mapDelete_of_none
            (foldl_clear_preserves_cleared q (room.players.filter (fun id => id ≠ pid))
              { s with matchmakingQueue := setDelete pid s.matchmakingQueue,
                       activeConnections := setDelete pid s.activeConnections } h1 h2).2⟩
      · exact ⟨mapLookup_mapDelete_of_none h1, mapLookup_mapDelete_of_none h2⟩

theorem cleanupPlayer_preserves_room_absent {c : String} (s : ServerState) (pid : String)
    (h : mapLookup c s.gameRooms = none) :
    mapLookup c (cleanupPlayer s pid).gameRooms = none := by
  simp only [cleanupPlayer]
  split
  · exact h
  · rename_i roomCode hsr
    split
    · exact h
    · rename_i room hgr
      split
      · rw [foldl_clearPlayerMappings_gameRooms]
        exact mapLookup_mapDelete_of_none h
      · have hne : c ≠ roomCode := by
          intro he
          rw [he] at h
          rw [h] at hgr
          exact Option.noConfusion hgr
        rw [mapLookup_mapSet_ne hne]
        exact h

theorem sweepRoomEntry_preserves (sockets : ConnMap) (now : Nat)
    {code : String} {players : List String} (s : ServerState) (entry : String × Room)
    (h : sweptOut code players s) :
    sweptOut code players (sweepRoomEntry sockets now s entry) := by
  simp only [sweepRoomEntry]
  split
  · refine ⟨?_, ?_⟩
    · rw [show (List.foldl clearPlayerMappings s entry.2.players).gameRooms = s.gameRooms
          from foldl_clearPlayerMappings_gameRooms entry.2.players s]
      exact mapLookup_mapDelete_of_none h.1
    · intro p hp
      exact foldl_preserve
        (P := fun s => mapLookup p s.socketRooms = none ∧ mapLookup p s.socketTypes = none)
        (fun s x hp' => clearPlayerMappings_preserves_cleared s x hp'.1 hp'.2)
        entry.2.players s (h.2 p hp)
  · exact h

theorem sweepRoomEntry_establishes (sockets : ConnMap) (now : Nat)
    (s : ServerState) (code : String) (room : Room)
    (hstale : isStaleRoom now sockets room = true) :
    sweptOut code room.players (sweepRoomEntry sockets now s (code, room)) := by
  simp only [sweepRoomEntry, hstale, if_true]
  refine ⟨mapLookup_mapDelete_self code _, ?_⟩
  intro p hp
  exact foldl_clearPlayerMappings_establishes room.players s p hp

theorem syncConnectionTracking_preserves (sockets : ConnMap)
    {code : String} {players : List String} (s : ServerState)
    (h : sweptOut code players s) :
    sweptOut code players (syncConnectionTracking s sockets).1 := by
  simp only [syncConnectionTracking]
  have h1 : sweptOut code players (s.activeConnections.foldl (fun s socketId =>
      if socketId ∈ s.activeConnections ∧ ¬ connConnected sockets socketId then
        cleanupPlayer s socketId
      else s) s) := by
    refine foldl_preserve (P := sweptOut code players) ?_ _ s h
    intro s' x hs'
    split
    · exact ⟨cleanupPlayer_preserves_room_absent s' x hs'.1,
        fun p hp => cleanupPlayer_preserves_cleared s' x (hs'.2 p hp).1 (hs'.2 p hp).2⟩
    · exact hs'
  refine foldl_preserve (P := sweptOut code players) ?_ _ _ h1
  intro s' x hs'
  exact hs'

/-- Claim C8: After one Reclaimer sweep, every room that was stale at the start
of the sweep (over the TTL, or with no live player connection) is absent from
the room store, and every player of such a room has its `socketRooms` and
`socketTypes` entries cleared — no disconnect event is needed for this. -/
theorem reclaimer_removes_stale_rooms (st : ServerState) (sockets : ConnMap)
    (now : Nat) (code : String) (room : Room)
    (hmem : (code, room) ∈ st.gameRooms)
    (hstale : isStaleRoom now sockets room = true) :
    mapLookup code (cleanupInactiveRooms st sockets now).gameRooms = none ∧
    room.players.all (fun p =>
      (mapLookup p (cleanupInactiveRooms st sockets now).socketRooms).isNone &&
      (mapLookup p (cleanupInactiveRooms st sockets now).socketTypes).isNone) = true := by
  obtain ⟨l1, l2, hsplit⟩ := List.append_of_mem hmem
  have hfold : sweptOut code room.players
      (st.gameRooms.foldl (sweepRoomEntry sockets now) st) := by
    rw [hsplit, List.foldl_append, List.foldl_cons]
    refine foldl_preserve (P := sweptOut code room.players)
      (fun s x hs => sweepRoomEntry_preserves sockets now s x hs) l2 _ ?_
    exact sweepRoomEntry_establishes sockets now _ code room hstale
  have hfinal := syncConnectionTracking_preserves sockets _ hfold
  refine ⟨hfinal.1, ?_⟩
  rw [List.all_eq_true]
  intro p hp
  have := hfinal.2 p hp
  simp [cleanupInactiveRooms, this.1, this.2]

/-- Witness for C8: with no live sockets, `sampleRoom` is stale and one sweep
removes it and clears both players' mappings. -/
theorem reclaimer_removes_stale_rooms_witness :
    mapLookup "ROOM01" (cleanupInactiveRooms sampleState deadSockets 0).gameRooms = none ∧
    sampleRoom.players.all (fun p =>
      (mapLookup p (cleanupInactiveRooms sampleState deadSockets 0).socketRooms).isNone &&
      (mapLookup p (cleanupInactiveRooms sampleState deadSockets 0).socketTypes).isNone) = true :=
  reclaimer_removes_stale_rooms sampleState deadSockets 0 "ROOM01" sampleRoom
    (by decide) (by decide)

/-! ## C9: room-code length and uniqueness -/

theorem string_mk_toList (l : List Char) : (String.mk l).toList = l := rfl

theorem string_mk_length (l : List Char) : (String.mk l).length = l.length := rfl

/-- The function `generateRoomCode` yields `min 6 d` characters when the random draw's
base-36 expansion has `d` digits. -/
theorem generateRoomCode_length (digits : List Nat) :
    (generateRoomCode digits).length = min 6 digits.length := by
  by_cases h : digits = []
  · subst h; rfl
  · simp only [generateRoomCode, jsRandomToString36, jsSubstring, jsToUpperCase,
      if_neg h, string_mk_toList, string_mk_length, List.length_map,
      List.drop_succ_cons, List.drop_zero, List.length_take]

/-- Claim C9 counterexample: `Math.random()` can return `0.5`, whose base-36
expansion is the single digit `18` (`"0.i"`); `substring(2, 8)` then yields
the one-character code `"I"`, not a 6-character string. -/
theorem room_code_length_counterexample :
    generateRoomCode [18] = "I" ∧ (generateRoomCode [18]).length ≠ 6 := by decide

/-- Claim C9 amended: A generated room code has *at most* 6 characters, and has
exactly 6 only when the random draw's base-36 fractional expansion carries at
least 6 digits; the `createRoom` handler retries generation until the code is
unused, so the code it commits is indeed absent from the live room store at
the moment of creation. -/
theorem room_code_amended (digits digits2 : List Nat) (st : ServerState)
    (sockId : String) (cands : List (List Nat)) (rawWord : String) (now : Nat)
    (st' : ServerState) (code pid : String) (players : List String)
    (evs : List ServerEvent)
    (h6 : 6 ≤ digits.length)
    (hres : handleCreateRoom st sockId cands rawWord now =
      some (st', CallbackResult.createSuccess code pid players, evs)) :
    (generateRoomCode digits).length = 6 ∧
    (generateRoomCode digits2).length ≤ 6 ∧
    mapLookup code st.gameRooms = none := by
  refine ⟨?_, ?_, ?_⟩
  · rw [generateRoomCode_length]
    exact Nat.min_eq_left h6
  · rw [generateRoomCode_length]
    exact Nat.min_le_left 6 digits2.length
  · simp only [handleCreateRoom] at hres
    cases hfind : cands.find?
        (fun d => mapLookup (generateRoomCode d) st.gameRooms = none) with
    | none => rw [hfind] at hres; exact absurd hres (by simp)
    | some d =>
      rw [hfind] at hres
      have hd := List.find?_some hfind
      simp only [Option.some.injEq, Prod.mk.injEq] at hres
      obtain ⟨-, hres2, -⟩ := hres
      injection hres2 with hcode hpid hplayers
      rw [← hcode]
      simpa using hd

/-- Witness for the C9 amended theorem, reusing the concrete `createRoom` run
out of `queuedState`. -/
theorem room_code_amended_witness :
    (generateRoomCode [1, 2, 3, 4, 5, 6]).length = 6 ∧
    (generateRoomCode [18]).length ≤ 6 ∧
    mapLookup "123456" queuedState.gameRooms = none :=
  room_code_amended [1, 2, 3, 4, 5, 6] [18] queuedState "Q" [[1, 2, 3, 4, 5, 6]]
    "crane" 0 queuedStateAfterCreate "123456" "Q" ["Q"]
    [ServerEvent.roomCreated "123456" "Q" ["Q"], ServerEvent.waitingForPlayer]
    (by decide) (by decide)

/-! ## C10: cleanup of a quickmatch pair versus the health endpoint -/

theorem foldl_establish {α : Type} {P : ServerState → Prop}
    {f : ServerState → α → ServerState}
    (hstep : ∀ s x, P s → P (f s x)) (x₀ : α) (hest : ∀ s, P (f s x₀)) :
    ∀ (l : List α) (s : ServerState), x₀ ∈ l → P (l.foldl f s)
  | [], _, hmem => absurd hmem (List.not_mem_nil x₀)
  | x :: l, s, hmem => by
    rcases List.mem_cons.mp hmem with h | h
    · subst h
      exact foldl_preserve hstep l (f s x₀) (hest s)
    · exact foldl_establish hstep x₀ hest l (f s x) h

/-- After `syncConnectionTracking`, every id the transport reports as
connected is in the tracked set: the second loop re-registers anything the
first loop's cleanups (or earlier bugs) removed. -/
theorem sync_tracks_connected (st : ServerState) (sockets : ConnMap) :
    ∀ id ∈ connectedIds sockets,
      id ∈ (syncConnectionTracking st sockets).1.activeConnections := by
  intro id hid
  simp only [syncConnectionTracking]
  refine foldl_establish (P := fun s => id ∈ s.activeConnections) ?_ id ?_ _ _ hid
  · intro s x hs
    show id ∈ setAdd x s.activeConnections
    simp only [setAdd]
    split
    · exact hs
    · exact List.mem_append.mpr (Or.inl hs)
  · intro s
    show id ∈ setAdd id s.activeConnections
    simp only [setAdd]
    split
    next h => exact h
    next h => exact List.mem_append.mpr (Or.inr (by simp))

/-- Claim C10 counterexample: `cleanupPlayer("p")` does remove the live partner
`"q"` from the tracked set (the claim's premise), but the health endpoint
reconciles before reading the count: it reports `tracked = 1 = actual`, so
the count it reports does *not* undercount the live connections. -/
theorem health_no_undercount_counterexample :
    "q" ∉ (cleanupPlayer pairState "p").activeConnections ∧
    healthReport (cleanupPlayer pairState "p") pairSockets = (1, 1) ∧
    (connectedIds pairSockets).length = 1 := by decide

/-- Claim C10 amended: For a quickmatch room with players `[p, q]`,
`cleanupPlayer(p)` deletes the room immediately and strips the remaining
player `q` from `socketRooms`, `socketTypes` *and* the tracked
active-connection set even though `q`'s transport may still be live — but the
health endpoint runs `syncConnectionTracking` before reading the count, which
re-registers every live connection, so the count the endpoint reports does
not undercount; the undercount exists only in the raw set between the cleanup
and the next reconciliation. -/
theorem cleanupPlayer_quickmatch_pair (s : ServerState) (pid q code : String)
    (room : Room) (sockets : ConnMap)
    (hsr : mapLookup pid s.socketRooms = some code)
    (hgr : mapLookup code s.gameRooms = some room)
    (hqm : room.isQuickMatch = true)
    (hplayers : room.players = [pid, q])
    (hne : q ≠ pid) :
    q ∉ (cleanupPlayer s pid).activeConnections ∧
    mapLookup code (cleanupPlayer s pid).gameRooms = none ∧
    mapLookup q (cleanupPlayer s pid).socketRooms = none ∧
    mapLookup q (cleanupPlayer s pid).socketTypes = none ∧
    (connectedIds sockets).all (fun id =>
      decide (id ∈ (syncConnectionTracking (cleanupPlayer s pid)
        sockets).1.activeConnections)) = true := by
  have hsync := sync_tracks_connected (cleanupPlayer s pid) sockets
  have hmain : q ∉ (cleanupPlayer s pid).activeConnections ∧
      mapLookup code (cleanupPlayer s pid).gameRooms = none ∧
      mapLookup q (cleanupPlayer s pid).socketRooms = none ∧
      mapLookup q (cleanupPlayer s pid).socketTypes = none := by
    simp only [cleanupPlayer, hsr, hgr, hplayers, hqm]
    simp [clearPlayerMappings, hne, setDelete, mapLookup_mapDelete_self,
      mapLookup_mapDelete_ne hne, mapLookup_mapDelete_of_none]
  refine ⟨hmain.1, hmain.2.1, hmain.2.2.1, hmain.2.2.2, ?_⟩
  rw [List.all_eq_true]
  intro id hid
  simpa using hsync id hid

/-- Witness for the C10 amended theorem at the concrete pair scenario. -/
theorem cleanupPlayer_quickmatch_pair_witness :
    "q" ∉ (cleanupPlayer pairState "p").activeConnections ∧
    mapLookup "R1" (cleanupPlayer pairState "p").gameRooms = none ∧
    mapLookup "q" (cleanupPlayer pairState "p").socketRooms = none ∧
    mapLookup "q" (cleanupPlayer pairState "p").socketTypes = none ∧
    (connectedIds pairSockets).all (fun id =>
      decide (id ∈ (syncConnectionTracking (cleanupPlayer pairState "p")
        pairSockets).1.activeConnections)) = true :=
  cleanupPlayer_quickmatch_pair pairState "p" "q" "R1" pairRoom pairSockets
    (by decide) (by decide) (by decide) (by decide) (by decide)

end WordleServer
